import Mathlib

/-!
Shallow embedding of the owl_cam capture scripts (capture_pi4.py and
cap_pi6.py): the naming service, the remote mirror, the annotator, the
index builder, the timelapse loop, and the cap_pi6 finalizer, together
with theorems settling the specification claims about them.

External effects (the system clock, the filesystem, subprocess exit
statuses, the PIL library) are modelled as explicit inputs; Python
exceptions are modelled with the `PyResult` type.
-/

namespace OwlCam

/-- Result of running a piece of Python code: either a normal value or an
uncaught exception, identified by its class name. -/
inductive PyResult (α : Type) where
  | ok (a : α)
  | exc (name : String)
deriving DecidableEq, Repr

/-- A wall-clock instant as rendered by `datetime.now()`, at second
granularity (the scripts never format sub-second fields). -/
structure DateTime where
  year : Nat
  month : Nat
  day : Nat
  hour : Nat
  minute : Nat
  second : Nat
deriving DecidableEq, Repr

/-- Zero padding to a fixed width, as Python's `%Y`/`%m`/... directives and
the `{i:04d}` format do for non-negative integers. -/
def zfill (w : Nat) (n : Nat) : String :=
  let s := toString n
  String.mk (List.replicate (w - s.length) '0') ++ s

/-- Rendering of `datetime.now().strftime("%Y%m%d_%H%M%S")`. -/
def strftime_Ymd_HMS (dt : DateTime) : String :=
  zfill 4 dt.year ++ zfill 2 dt.month ++ zfill 2 dt.day ++ "_" ++
    zfill 2 dt.hour ++ zfill 2 dt.minute ++ zfill 2 dt.second

/-- Python slice `s[:-n]`: drop the last `n` characters. Implemented over
the character list so that it reduces in the kernel. -/
def str_drop_right (s : String) (n : Nat) : String :=
  String.mk (s.toList.take (s.toList.length - n))

/-- Model of `os.path.join(dir, f)` for a relative second component:
insert a separator unless `dir` already ends with one. -/
def ospath_join (dir f : String) : String :=
  if dir.toList.getLast? = some '/' then dir ++ f else dir ++ "/" ++ f

/-- Model of `os.path.basename` for a path. -/
def ospath_basename (p : String) : String :=
  String.mk ((p.toList.splitOn '/').getLastD p.toList)

/-- The naming service of capture_pi4.py: note the `[:-3]` slice, which
drops the LAST THREE characters of the 15-character `%Y%m%d_%H%M%S`
rendering (a leftover from capture_pi.py, where the format ended in
`_%f` microseconds and the slice truncated them to milliseconds). -/
def timestamped_filename_pi4 (outdir pfx ext : String) (now : DateTime) : String :=
  let ts := str_drop_right (strftime_Ymd_HMS now) 3
  ospath_join outdir (pfx ++ "_" ++ ts ++ "." ++ ext)

/-- The naming service of cap_pi6.py: full `%Y%m%d_%H%M%S` timestamp, no
truncation. -/
def timestamped_filename_pi6 (outdir pfx ext : String) (now : DateTime) : String :=
  let ts := strftime_Ymd_HMS now
  ospath_join outdir (pfx ++ "_" ++ ts ++ "." ++ ext)

/-! ## Remote mirror (`_ensure_remote_dir`, `_scp_upload`) -/

/-- Outcomes of the external commands the remote mirror shells out to:
whether the ssh/scp tools are on PATH (`shutil.which`) and the exit
statuses of the remote `mkdir -p` and of the scp transfer. -/
structure RemoteEnv where
  ssh_available : Bool
  scp_available : Bool
  mkdir_ok : Bool
  scp_ok : Bool
deriving DecidableEq, Repr

/-- Embedding of `_ensure_remote_dir` (identical in both scripts): fail if
ssh is missing, otherwise report the exit status of the remote mkdir. -/
def ensure_remote_dir (env : RemoteEnv) : Bool :=
  if !env.ssh_available then false
  else env.mkdir_ok

/-- Observable trace of one `_scp_upload` call: the returned boolean,
whether an scp transfer was attempted at all, and the remote target
string handed to scp when it was. -/
structure UploadTrace where
  result : Bool
  transfer_attempted : Bool
  target : Option String
deriving DecidableEq, Repr

/-- Python `s.rstrip("/")`: remove every trailing slash. -/
def rstrip_slash (s : String) : String :=
  String.mk (s.toList.reverse.dropWhile (fun c => c = '/')).reverse

/-- Embedding of `_scp_upload` (identical in both scripts): bail out if scp
is missing; run `_ensure_remote_dir` and bail out on failure BEFORE any
transfer; otherwise attempt the transfer to
`user@host:rstrip(path)/basename` and return its exit status. -/
def scp_upload (local_path remote_user remote_host remote_path : String)
    (env : RemoteEnv) : UploadTrace :=
  if !env.scp_available then ⟨false, false, none⟩
  else if !(ensure_remote_dir env) then ⟨false, false, none⟩
  else
    let basename := ospath_basename local_path
    let tgt := remote_user ++ "@" ++ remote_host ++ ":" ++
      rstrip_slash remote_path ++ "/" ++ basename
    ⟨env.scp_ok, true, some tgt⟩

/-! ## Annotator (`_annotate_image_with_timestamp`) -/

/-- External conditions an annotator call runs under: availability of the
PIL library, whether the image opens/converts, the three font sources,
whether `draw.textbbox` works (it falls back to `draw.textsize`), and
whether the final save succeeds. -/
structure AnnotateEnv where
  pil_available : Bool
  open_ok : Bool
  font_path_given : Bool
  truetype_path_ok : Bool
  truetype_common_ok : Bool
  textbbox_ok : Bool
  measure_fallback_ok : Bool
  save_ok : Bool
deriving DecidableEq, Repr

/-- Font chosen by the fallback chain: caller-supplied path, then the
DejaVu system font, then PIL's built-in default bitmap font. -/
inductive FontChoice where
  | fromPath
  | fromCommon
  | builtinDefault
deriving DecidableEq, Repr

/-- Embedding of the font-selection chain shared by both annotators: every
truetype failure is caught locally and falls through to the next source;
`load_default` is a built-in bitmap font that needs no file. -/
def choose_font (env : AnnotateEnv) : FontChoice :=
  if env.font_path_given && env.truetype_path_ok then .fromPath
  else if env.truetype_common_ok then .fromCommon
  else .builtinDefault

/-- Embedding of capture_pi4.py's `_annotate_image_with_timestamp`: if PIL
is absent return False; otherwise everything inside the big `try` block
(open, font fallback, measuring, drawing, save) either completes, giving
True, or raises, which the `except` catches, giving False. The function
never lets an exception escape. -/
def annotate_pi4 (env : AnnotateEnv) (text : Option String) : PyResult Bool :=
  if !env.pil_available then .ok false
  else
    -- a missing `text` is replaced by the current timestamp, harmlessly
    if !env.open_ok then .ok false
    else if !env.textbbox_ok && !env.measure_fallback_ok then .ok false
    else if !env.save_ok then .ok false
    else .ok true

/-- Embedding of cap_pi6.py's `_annotate_image_with_timestamp`: same shape
as the pi4 version EXCEPT that when `text is None` the default branch runs
`if args.debug:` with no `args` name in scope (it is a local of `main`),
raising an uncaught NameError before the `try` block is entered. -/
def annotate_pi6 (env : AnnotateEnv) (text : Option String) : PyResult Bool :=
  if !env.pil_available then .ok false
  else
    match text with
    | none => .exc "NameError"
    | some _ =>
      if !env.open_ok then .ok false
      else if !env.textbbox_ok && !env.measure_fallback_ok then .ok false
      else if !env.save_ok then .ok false
      else .ok true

/-! ## Index builder (`build_index_html`) -/

/-- One directory entry as the index builder observes it: its name, its
`os.path.getmtime` value, its `os.path.getsize` value, and whether those
two stat calls succeed inside the per-entry `try` (on failure the page
shows empty time and size strings). -/
structure FileEntry where
  name : String
  mtime : Nat
  size : Nat
  stat_ok : Bool
deriving DecidableEq, Repr

/-- Result of the `os.listdir` call: a listing, a FileNotFoundError (the
only exception the builder catches), or some other exception such as
PermissionError. -/
inductive ListingResult where
  | ok (files : List FileEntry)
  | fileNotFound
  | otherError (name : String)
deriving DecidableEq, Repr

/-- Extension part of `os.path.splitext(name)` (with its dot) for a plain
directory-entry name: split at the last dot, except that a name whose
characters before that dot are all dots has no extension. -/
def splitext_ext (name : String) : String :=
  let cs := name.toList
  let r := cs.reverse.indexOf '.'
  if cs.length ≤ r then ""
  else
    let sepIdx := cs.length - 1 - r
    if (cs.take sepIdx).any (fun c => c ≠ '.') then String.mk (cs.drop sepIdx)
    else ""

/-- The fixed recognized media extensions of `build_index_html`. -/
def image_exts : List String := ["jpg", "jpeg", "png", "gif", "webp", "mp4"]

/-- Python `s.lstrip(".")`. -/
def lstrip_dot (s : String) : String :=
  String.mk (s.toList.dropWhile (fun c => c = '.'))

/-- Python `s.lower()` restricted to ASCII, which is all the scripts
compare against. -/
def str_lower (s : String) : String :=
  String.mk (s.toList.map Char.toLower)

/-- The list-comprehension filter of `build_index_html`:
`os.path.splitext(f)[1].lstrip(".").lower() in image_exts`. -/
def recognized_media (name : String) : Bool :=
  image_exts.contains (str_lower (lstrip_dot (splitext_ext name)))

/-- Python's `list.sort(key=..., reverse=True)` on directory entries: a
stable sort, descending by mtime, entries of equal mtime keeping the
underlying directory order. Any two stable sorts agree on every input, so
the stable `List.insertionSort` with the relation "the earlier element's
mtime is at least the later one's" is exactly this function. -/
def sort_mtime_desc (l : List FileEntry) : List FileEntry :=
  l.insertionSort (fun a b => b.mtime ≤ a.mtime)

/-- Embedding of Python's `html.escape` with its default `quote=True`. -/
def html_escape_char (c : Char) : String :=
  if c = '&' then "&amp;"
  else if c = '<' then "&lt;"
  else if c = '>' then "&gt;"
  else if c = '"' then "&quot;"
  else if c = '\x27' then "&#x27;"
  else String.mk [c]

/-- Embedding of `html.escape(s)`. -/
def html_escape (s : String) : String :=
  String.join (s.toList.map html_escape_char)

/-- The line opening one tile; tile counting recognizes exactly it. -/
def card_open_line : String := "    <div class=\x27card\x27>"

/-- The four lines `build_index_html` emits per entry (identical in both
scripts): a card wrapper, the inline media link, and a meta line showing
the escaped filename, the formatted mtime and the size in KB computed by
integer floor division of the byte size by 1024. `fmt` stands for
`time.strftime("%Y-%m-%d %H:%M:%S", time.localtime(...))`; when the
per-entry stat calls fail both strings are empty. -/
def entry_tile (fmt : Nat → String) (e : FileEntry) : List String :=
  let path := html_escape e.name
  let mtimeStr := if e.stat_ok then fmt e.mtime else ""
  let sizeStr := if e.stat_ok then toString (e.size / 1024) else ""
  [card_open_line,
   "      <a href=\x27" ++ path ++ "\x27><img src=\x27" ++ path ++ "\x27 alt=\x27" ++
     path ++ "\x27></a>",
   "      <div class=\x27meta\x27>" ++ path ++ " &middot; " ++ mtimeStr ++
     " &middot; " ++ sizeStr ++ " KB</div>",
   "    </div>"]

/-- Concatenated tiles for a list of entries. -/
def tiles (fmt : Nat → String) : List FileEntry → List String
  | [] => []
  | e :: es => entry_tile fmt e ++ tiles fmt es

/-- The fixed HTML head and grid opener of capture_pi4.py's page. -/
def page_header_pi4 (safe_title : String) : List String :=
  ["<!doctype html>",
   "<html>",
   "<head>",
   "  <meta charset=\x27utf-8\x27>",
   "  <title>" ++ safe_title ++ "</title>",
   "  <meta name=\x27viewport\x27 content=\x27width=device-width,initial-scale=1\x27>",
   "  <style>",
   "    body \x7b font-family: Arial, sans-serif; margin: 0; padding: 1rem; \x7d",
   "    .grid \x7b display: grid; grid-template-columns: repeat(auto-fill,minmax(200px,1fr)); grid-gap: 10px; \x7d",
   "    .card \x7b border: 1px solid #ddd; padding: 6px; background: #fff; \x7d",
   "    img \x7b max-width: 100%; height: auto; display: block; \x7d",
   "    .meta \x7b font-size: 0.85rem; color: #555; margin-top: 6px; \x7d",
   "  </style>",
   "</head>",
   "<body>",
   "  <h1>" ++ safe_title ++ "</h1>",
   "  <div class=\x27grid\x27>"]

/-- The fixed HTML head of cap_pi6.py's page: same as capture_pi4 plus a
favicon link, and then one hard-coded extra card pointing at
`timelapse.mp4` with a `thumbnail.jpg` image, emitted before the
per-entry tiles. -/
def page_header_pi6 (safe_title : String) : List String :=
  ["<!doctype html>",
   "<html>",
   "<head>",
   "  <meta charset=\x27utf-8\x27>",
   "  <title>" ++ safe_title ++ "</title>",
   "  <meta name=\x27viewport\x27 content=\x27width=device-width,initial-scale=1\x27>",
   "  <style>",
   "    body \x7b font-family: Arial, sans-serif; margin: 0; padding: 1rem; \x7d",
   "    .grid \x7b display: grid; grid-template-columns: repeat(auto-fill,minmax(200px,1fr)); grid-gap: 10px; \x7d",
   "    .card \x7b border: 1px solid #ddd; padding: 6px; background: #fff; \x7d",
   "    img \x7b max-width: 100%; height: auto; display: block; \x7d",
   "    .meta \x7b font-size: 0.85rem; color: #555; margin-top: 6px; \x7d",
   "  </style>",
   "  <!-- Standard Favicon link -->",
   "  <link rel=\x27icon\x27 href=\x27favicon.ico\x27 type=\x27image/x-icon\x27>",
   "</head>",
   "<body>",
   "  <h1>" ++ safe_title ++ "</h1>",
   "  <div class=\x27grid\x27>",
   card_open_line,
   "      <a href=\x27timelapse.mp4\x27><img src=\x27thumbnail.jpg\x27 alt=\x27timelapse.mp4\x27></a>",
   "      <div class=\x27meta\x27>Time Lapse video.</div>",
   "    </div>"]

/-- The closing lines of both pages. -/
def page_footer : List String := ["  </div>", "</body>", "</html>"]

/-- Filesystem conditions one `build_index_html` call runs under. -/
structure IndexState where
  listing : ListingResult
  write_ok : Bool
deriving Repr

/-- What a completed `build_index_html` call produced: the returned index
path (`None` when the write failed) and the page lines it assembled. -/
structure IndexOutcome where
  index_path : Option String
  page : List String
deriving DecidableEq, Repr

/-- The entry list `build_index_html` works on: the listing filtered to
recognized media extensions and stably sorted newest-first; a missing
directory (the caught FileNotFoundError) counts as an empty listing. -/
def index_entries (st : IndexState) : List FileEntry :=
  let entries0 := match st.listing with
    | .ok fs => fs.filter (fun f => recognized_media f.name)
    | _ => []
  sort_mtime_desc entries0

/-- Embedding of capture_pi4.py's `build_index_html`: only
FileNotFoundError from `os.listdir` is caught (any other listing error
propagates); the page is header, one tile per sorted entry, footer; a
failed write of `outdir/index.html` is caught and reported by returning
`None` as the index path. -/
def build_index_html_pi4 (fmt : Nat → String) (outdir title : String)
    (st : IndexState) : PyResult IndexOutcome :=
  match st.listing with
  | .otherError e => .exc e
  | _ =>
    let entries := index_entries st
    let lines := page_header_pi4 (html_escape title) ++ tiles fmt entries ++ page_footer
    if st.write_ok then .ok ⟨some (ospath_join outdir "index.html"), lines⟩
    else .ok ⟨none, lines⟩

/-- Embedding of cap_pi6.py's `build_index_html`: identical control flow,
with the pi6 page head (favicon plus fixed timelapse-thumbnail card). -/
def build_index_html_pi6 (fmt : Nat → String) (outdir title : String)
    (st : IndexState) : PyResult IndexOutcome :=
  match st.listing with
  | .otherError e => .exc e
  | _ =>
    let entries := index_entries st
    let lines := page_header_pi6 (html_escape title) ++ tiles fmt entries ++ page_footer
    if st.write_ok then .ok ⟨some (ospath_join outdir "index.html"), lines⟩
    else .ok ⟨none, lines⟩

/-- Number of tiles on a page: occurrences of the card-opening line. -/
def count_cards (lines : List String) : Nat :=
  lines.count card_open_line

/-- Embedding of the index portion of `single_capture` (capture_pi4.py):
when `build_index` is on, build the page, let a builder exception
propagate, and attempt the remote publish of the index only when the
returned index path is non-null AND a remote target is configured.
Returns whether that publish was attempted. -/
def single_capture_index_step (build_index remote : Bool) (fmt : Nat → String)
    (outdir title : String) (st : IndexState) : PyResult Bool :=
  if build_index then
    match build_index_html_pi4 fmt outdir title st with
    | .exc e => .exc e
    | .ok out => .ok (out.index_path.isSome && remote)
  else .ok false

/-! ## Timelapse loop (`timelapse_capture`) -/

/-- Files produced by the remaining iterations of the timelapse loop of
capture_pi4.py, starting at iteration `i` with `r` iterations left: each
iteration captures to `timestamped_filename(outdir, prefix=f"img{i:04d}")`
at the clock instant of that iteration, then increments `i`. With a
configured count `n` the `while i < count` loop runs exactly `n` times. -/
def timelapse_files_pi4 (outdir : String) (clock : Nat → DateTime) :
    Nat → Nat → List String
  | 0, _ => []
  | r + 1, i =>
    timestamped_filename_pi4 outdir ("img" ++ zfill 4 i) "jpg" (clock i) ::
      timelapse_files_pi4 outdir clock r (i + 1)

/-- Embedding of capture_pi4.py's `timelapse_capture` with a configured
(non-`None`) count: the full list of filenames captured to. -/
def timelapse_capture_pi4 (outdir : String) (clock : Nat → DateTime)
    (count : Nat) : List String :=
  timelapse_files_pi4 outdir clock count 0

/-- Files produced by cap_pi6.py's `timelapse_capture` loop, which is the
same loop over its own (untruncated) naming service. -/
def timelapse_files_pi6 (outdir : String) (clock : Nat → DateTime) :
    Nat → Nat → List String
  | 0, _ => []
  | r + 1, i =>
    timestamped_filename_pi6 outdir ("img" ++ zfill 4 i) "jpg" (clock i) ::
      timelapse_files_pi6 outdir clock r (i + 1)

/-- Embedding of cap_pi6.py's `timelapse_capture` with a configured count. -/
def timelapse_capture_pi6 (outdir : String) (clock : Nat → DateTime)
    (count : Nat) : List String :=
  timelapse_files_pi6 outdir clock count 0

/-! ## The cap_pi6 finalizer (the `finally` block of `main`) -/

/-- Conditions the cap_pi6 finalizer runs under: whether a remote target
is configured (`scp_config` is not `None`), whether the index write
succeeds, and the directory listing. -/
structure FinalState where
  remote : Bool
  write_ok : Bool
  listing : ListingResult
  outdir : String

/-- Observable effects of a completed cap_pi6 finalizer run. -/
structure FinalTrace where
  index_path : Option String
  index_publish_attempted : Bool
  republished : List String
  thumb_src : Option String
  thumb_publish_attempted : Bool
deriving DecidableEq, Repr

/-- Embedding of the `finally` block of cap_pi6.py's `main`:
1. build the index; publish it only if a path came back AND a remote
   target is configured;
2. re-list the directory, filter to recognized media, sort newest-first;
3. `for fn in entries: fn = outdir + "/" + fn; _scp_upload(fn, **scp_config)`
   — the `**scp_config` unpack raises TypeError when `scp_config` is
   `None`, on the first iteration, regardless of upload outcomes;
4. `shutil.copy2(fn, "thumbnail.jpg")` — reads the loop variable, so an
   empty entry list raises NameError; otherwise the copied source is the
   LAST element of the descending list, i.e. the oldest file;
5. `_scp_upload("thumbnail.jpg", **scp_config)` — again TypeError if no
   remote target were configured, though step 3 or 4 has already raised
   in every such run. -/
def finalize_pi6 (fmt : Nat → String) (st : FinalState) : PyResult FinalTrace :=
  match build_index_html_pi6 fmt st.outdir "Owl Box Timelapse Image Index"
      ⟨st.listing, st.write_ok⟩ with
  | .exc e => .exc e
  | .ok out =>
    let indexPub := out.index_path.isSome && st.remote
    let entries := index_entries ⟨st.listing, st.write_ok⟩
    match entries with
    | [] => .exc "NameError"
    | e :: es =>
      if !st.remote then .exc "TypeError"
      else
        let reps := (e :: es).map (fun f => st.outdir ++ "/" ++ f.name)
        let lastfn := st.outdir ++ "/" ++ ((e :: es).getLast (List.cons_ne_nil e es)).name
        .ok ⟨out.index_path, indexPub, reps, some lastfn, true⟩

/-! ## Theorems about the claims -/

/-- C1: the claim states that the timestamp (plus the optional zero-padded
sequence index) makes every pair of captures at distinct clock seconds
produce distinct filenames. capture_pi4.py violates it: its `[:-3]` slice
(left over from capture_pi.py, whose format ended in `_%f`) truncates the
seconds and the final minute digit, so two single-mode captures one second
apart (14:35:22 and 14:35:23) get the SAME path, while cap_pi6.py's
untruncated naming keeps them distinct. -/
theorem pi4_naming_collides_at_distinct_seconds :
    (⟨2025, 10, 12, 14, 35, 22⟩ : DateTime).second ≠
      (⟨2025, 10, 12, 14, 35, 23⟩ : DateTime).second ∧
    timestamped_filename_pi4 "./images" "image" "jpg" ⟨2025, 10, 12, 14, 35, 22⟩ =
      timestamped_filename_pi4 "./images" "image" "jpg" ⟨2025, 10, 12, 14, 35, 23⟩ ∧
    timestamped_filename_pi4 "./images" "image" "jpg" ⟨2025, 10, 12, 14, 35, 22⟩ =
      "./images/image_20251012_143.jpg" ∧
    timestamped_filename_pi6 "./images" "image" "jpg" ⟨2025, 10, 12, 14, 35, 22⟩ ≠
      timestamped_filename_pi6 "./images" "image" "jpg" ⟨2025, 10, 12, 14, 35, 23⟩ := by
  decide

/-- C2: if the directory-ensure step fails, `_scp_upload` returns failure
with no transfer attempted; and a transfer is attempted only when
directory-ensure succeeded. -/
theorem scp_upload_transfer_needs_ensure (lp u h rp : String) (env : RemoteEnv) :
    (ensure_remote_dir env = false →
      scp_upload lp u h rp env = ⟨false, false, none⟩) ∧
    ((scp_upload lp u h rp env).transfer_attempted = true →
      ensure_remote_dir env = true) := by
  rcases env with ⟨ssh, scp, mk, ok⟩
  cases ssh <;> cases scp <;> cases mk <;> cases ok <;>
    simp [scp_upload, ensure_remote_dir]

/-- C2 witness: with ssh missing the ensure step fails and the upload
reports failure without a transfer; with everything available a transfer
is attempted and indeed the ensure step had succeeded. -/
theorem scp_upload_transfer_needs_ensure_witness :
    scp_upload "a.jpg" "u" "h" "/srv" ⟨false, true, true, true⟩ =
      ⟨false, false, none⟩ ∧
    ensure_remote_dir ⟨true, true, true, true⟩ = true :=
  ⟨(scp_upload_transfer_needs_ensure "a.jpg" "u" "h" "/srv"
      ⟨false, true, true, true⟩).1 (by decide),
   (scp_upload_transfer_needs_ensure "a.jpg" "u" "h" "/srv"
      ⟨true, true, true, true⟩).2 (by decide)⟩

/-- C3: the claim states that the annotator always catches its errors and
returns a boolean. capture_pi4.py's version does (second conjunct), and so
does cap_pi6.py's whenever a text is supplied (third conjunct), but
cap_pi6.py's version with the defaulted `text=None` evaluates `args.debug`
with no `args` in scope BEFORE entering its `try` block and so raises an
uncaught NameError (first conjunct) — with PIL present and a perfectly
healthy image. -/
theorem annotate_pi6_raises_on_default_text :
    annotate_pi6 ⟨true, true, false, false, false, true, true, true⟩ none =
      .exc "NameError" ∧
    (∀ (env : AnnotateEnv) (text : Option String), ∃ b, annotate_pi4 env text = .ok b) ∧
    (∀ (env : AnnotateEnv) (s : String), ∃ b, annotate_pi6 env (some s) = .ok b) := by
  refine ⟨by decide, ?_, ?_⟩
  · intro env text
    rcases env with ⟨pil, op, fg, fp, fc, tb, mf, sv⟩
    cases pil <;> cases op <;> cases tb <;> cases mf <;> cases sv <;>
      exact ⟨_, rfl⟩
  · intro env s
    rcases env with ⟨pil, op, fg, fp, fc, tb, mf, sv⟩
    cases pil <;> cases op <;> cases tb <;> cases mf <;> cases sv <;>
      exact ⟨_, rfl⟩

/-! ### Tile-counting helper lemmas -/

/-- Counting distributes over page concatenation. -/
theorem count_cards_append (l₁ l₂ : List String) :
    count_cards (l₁ ++ l₂) = count_cards l₁ + count_cards l₂ :=
  List.count_append ..

/-- An entry's four lines contain exactly one card opener: the second and
third lines start with six spaces wherever the escaped filename lands, and
the closing line is fixed. -/
theorem count_cards_entry_tile (fmt : Nat → String) (e : FileEntry) :
    count_cards (entry_tile fmt e) = 1 := by
  have h₂ : "      <a href=\x27" ++ html_escape e.name ++ "\x27><img src=\x27" ++
      html_escape e.name ++ "\x27 alt=\x27" ++ html_escape e.name ++ "\x27></a>" ≠
      card_open_line := by
    intro heq
    have h6 := congrArg (fun s => s.data.take 6) heq
    simp [card_open_line] at h6
  have h₃ : "      <div class=\x27meta\x27>" ++ html_escape e.name ++ " &middot; " ++
      (if e.stat_ok then fmt e.mtime else "") ++ " &middot; " ++
      (if e.stat_ok then toString (e.size / 1024) else "") ++ " KB</div>" ≠
      card_open_line := by
    intro heq
    have h6 := congrArg (fun s => s.data.take 6) heq
    simp [card_open_line] at h6
  simp [count_cards, entry_tile, List.count_cons, card_open_line]
  exact ⟨h₃, h₂⟩

/-- The tile block contributes exactly one card opener per entry. -/
theorem count_cards_tiles (fmt : Nat → String) :
    ∀ es : List FileEntry, count_cards (tiles fmt es) = es.length
  | [] => rfl
  | e :: es => by
    rw [tiles, count_cards_append, count_cards_entry_tile,
      count_cards_tiles fmt es, List.length_cons]
    omega

/-- capture_pi4.py's fixed page head contains no card opener, whatever the
escaped title is. -/
theorem count_cards_header_pi4 (t : String) :
    count_cards (page_header_pi4 t) = 0 := by
  have hTitle : "  <title>" ++ t ++ "</title>" ≠ card_open_line := by
    intro heq
    have h6 := congrArg (fun s => s.data.take 6) heq
    simp [card_open_line] at h6
  have hH1 : "  <h1>" ++ t ++ "</h1>" ≠ card_open_line := by
    intro heq
    have h6 := congrArg (fun s => s.data.take 6) heq
    simp [card_open_line] at h6
  simp [count_cards, page_header_pi4, List.count_cons, card_open_line]
  exact ⟨hH1, hTitle⟩

/-- cap_pi6.py's fixed page head contains exactly one card opener: the
hard-coded timelapse-thumbnail card. -/
theorem count_cards_header_pi6 (t : String) :
    count_cards (page_header_pi6 t) = 1 := by
  have hTitle : "  <title>" ++ t ++ "</title>" ≠ card_open_line := by
    intro heq
    have h6 := congrArg (fun s => s.data.take 6) heq
    simp [card_open_line] at h6
  have hH1 : "  <h1>" ++ t ++ "</h1>" ≠ card_open_line := by
    intro heq
    have h6 := congrArg (fun s => s.data.take 6) heq
    simp [card_open_line] at h6
  simp [count_cards, page_header_pi6, List.count_cons, card_open_line]
  first
  | exact ⟨hH1, hTitle⟩
  | exact ⟨hTitle, hH1⟩
  | rfl

/-- The closing lines contain no card opener. -/
theorem count_cards_footer : count_cards page_footer = 0 := by decide

/-- Card count of a full capture_pi4 page. -/
theorem count_cards_page_pi4 (fmt : Nat → String) (t : String)
    (es : List FileEntry) :
    count_cards (page_header_pi4 t ++ tiles fmt es ++ page_footer) = es.length := by
  rw [count_cards_append, count_cards_append, count_cards_header_pi4,
    count_cards_tiles, count_cards_footer]
  omega

/-- Card count of a full cap_pi6 page. -/
theorem count_cards_page_pi6 (fmt : Nat → String) (t : String)
    (es : List FileEntry) :
    count_cards (page_header_pi6 t ++ tiles fmt es ++ page_footer) = es.length + 1 := by
  rw [count_cards_append, count_cards_append, count_cards_header_pi6,
    count_cards_tiles, count_cards_footer]
  omega

/-- C4, counterexample: the claim says a directory that cannot be read is
treated as zero entries with a page still written, but `build_index_html`
catches only FileNotFoundError; an `os.listdir` failing with
PermissionError (a directory that exists but cannot be read) propagates as
an uncaught exception, and no page comes back. -/
theorem build_index_pi4_propagates_permission_error :
    build_index_html_pi4 (fun _ => "") "./images" "Owl box Timelapse Image Index"
      ⟨.otherError "PermissionError", true⟩ = .exc "PermissionError" := rfl

/-- C4, amended: if the output directory is MISSING (the caught
FileNotFoundError) the builder still writes a valid page with the title
and an empty grid; if the page cannot be written it returns a null index
path; and the `single_capture` caller skips the remote publish of the
index exactly when the returned path is null. -/
theorem build_index_failure_policy (fmt : Nat → String) (outdir title : String)
    (st : IndexState) :
    (st.listing = .fileNotFound →
      build_index_html_pi4 fmt outdir title st =
        .ok ⟨if st.write_ok then some (ospath_join outdir "index.html") else none,
             page_header_pi4 (html_escape title) ++ tiles fmt [] ++ page_footer⟩ ∧
      count_cards (page_header_pi4 (html_escape title) ++ tiles fmt [] ++
        page_footer) = 0 ∧
      ("  <h1>" ++ html_escape title ++ "</h1>") ∈ page_header_pi4 (html_escape title)) ∧
    (st.write_ok = false → ∀ out, build_index_html_pi4 fmt outdir title st = .ok out →
      out.index_path = none) ∧
    (∀ remote out, build_index_html_pi4 fmt outdir title st = .ok out →
      out.index_path = none →
      single_capture_index_step true remote fmt outdir title st = .ok false) := by
  refine ⟨?_, ?_, ?_⟩
  · intro hfs
    rcases st with ⟨ls, wok⟩
    simp only at hfs
    subst hfs
    refine ⟨?_, ?_, ?_⟩
    · cases wok <;> simp [build_index_html_pi4, index_entries, sort_mtime_desc]
    · exact count_cards_page_pi4 fmt _ []
    · simp [page_header_pi4]
  · intro hw out hout
    rcases st with ⟨ls, wok⟩
    simp only at hw
    subst hw
    cases ls <;> simp [build_index_html_pi4] at hout <;> simp [← hout]
  · intro remote out hout hnone
    simp [single_capture_index_step, hout, hnone]

/-- C4 witness: with the directory missing and the page unwritable, the
builder still returns normally with a null index path and the caller does
not attempt the remote publish of the index. -/
theorem build_index_failure_policy_witness :
    build_index_html_pi4 (fun _ => "") "d" "T" ⟨.fileNotFound, false⟩ =
      .ok ⟨none, page_header_pi4 (html_escape "T") ++ tiles (fun _ => "") [] ++
        page_footer⟩ ∧
    single_capture_index_step true true (fun _ => "") "d" "T" ⟨.fileNotFound, false⟩ =
      .ok false :=
  ⟨((build_index_failure_policy (fun _ => "") "d" "T" ⟨.fileNotFound, false⟩).1 rfl).1,
   (build_index_failure_policy (fun _ => "") "d" "T" ⟨.fileNotFound, false⟩).2.2 true
     ⟨none, page_header_pi4 (html_escape "T") ++ tiles (fun _ => "") [] ++ page_footer⟩
     ((build_index_failure_policy (fun _ => "") "d" "T" ⟨.fileNotFound, false⟩).1 rfl).1
     rfl⟩

/-- C6, counterexample: the claim says a directory yielding zero entries
produces a page with zero tiles, but cap_pi6.py's builder emits one
hard-coded timelapse-thumbnail tile before the per-entry tiles, so its
empty-directory page has one tile. -/
theorem pi6_empty_dir_page_has_one_tile :
    build_index_html_pi6 (fun _ => "") "./images" "Owl box Timelapse Image Index"
      ⟨.ok [], true⟩ =
      .ok ⟨some "./images/index.html",
           page_header_pi6 (html_escape "Owl box Timelapse Image Index") ++
             page_footer⟩ ∧
    count_cards (page_header_pi6 (html_escape "Owl box Timelapse Image Index") ++
      page_footer) = 1 := by
  decide

/-- C6, amended: capture_pi4.py's page contains exactly one tile per
recognized media entry (so an empty directory gives zero tiles), while
cap_pi6.py's page contains those plus one fixed timelapse-thumbnail tile
(so an empty directory gives one tile); each entry tile with healthy stat
calls shows the escaped filename, the formatted mtime and the size in KB
as integer truncation of bytes/1024. -/
theorem index_page_tile_counts (fmt : Nat → String) (outdir title : String)
    (st : IndexState) :
    (∀ out, build_index_html_pi4 fmt outdir title st = .ok out →
      count_cards out.page = (index_entries st).length) ∧
    (∀ out, build_index_html_pi6 fmt outdir title st = .ok out →
      count_cards out.page = (index_entries st).length + 1) ∧
    (∀ e : FileEntry, e.stat_ok = true →
      entry_tile fmt e =
        [card_open_line,
         "      <a href=\x27" ++ html_escape e.name ++ "\x27><img src=\x27" ++
           html_escape e.name ++ "\x27 alt=\x27" ++ html_escape e.name ++ "\x27></a>",
         "      <div class=\x27meta\x27>" ++ html_escape e.name ++ " &middot; " ++
           fmt e.mtime ++ " &middot; " ++ toString (e.size / 1024) ++ " KB</div>",
         "    </div>"]) := by
  refine ⟨?_, ?_, ?_⟩
  · intro out hout
    rcases st with ⟨ls, wok⟩
    cases ls <;> cases wok <;>
      simp [build_index_html_pi4] at hout <;>
      (subst hout; exact count_cards_page_pi4 ..)
  · intro out hout
    rcases st with ⟨ls, wok⟩
    cases ls <;> cases wok <;>
      simp [build_index_html_pi6] at hout <;>
      (subst hout; exact count_cards_page_pi6 ..)
  · intro e he
    simp [entry_tile, he]

/-- C6 witness for the amended claim: a one-entry directory yields exactly
one tile in the capture_pi4 page and two in the cap_pi6 page, and the tile
of a 2500-byte file displays 2 KB. -/
theorem index_page_tile_counts_witness :
    count_cards (page_header_pi4 (html_escape "T") ++
      tiles (fun _ => "t") (index_entries ⟨.ok [⟨"a.jpg", 5, 2500, true⟩], true⟩) ++
      page_footer) = 1 ∧
    entry_tile (fun _ => "t") ⟨"a.jpg", 5, 2500, true⟩ =
      [card_open_line,
       "      <a href=\x27a.jpg\x27><img src=\x27a.jpg\x27 alt=\x27a.jpg\x27></a>",
       "      <div class=\x27meta\x27>a.jpg &middot; t &middot; 2 KB</div>",
       "    </div>"] := by
  constructor
  · have h := (index_page_tile_counts (fun _ => "t") "d" "T"
      ⟨.ok [⟨"a.jpg", 5, 2500, true⟩], true⟩).1
      ⟨some (ospath_join "d" "index.html"),
        page_header_pi4 (html_escape "T") ++
          tiles (fun _ => "t") (index_entries ⟨.ok [⟨"a.jpg", 5, 2500, true⟩], true⟩) ++
          page_footer⟩ rfl
    simpa using h
  · have h := (index_page_tile_counts (fun _ => "t") "d" "T"
      ⟨.ok [⟨"a.jpg", 5, 2500, true⟩], true⟩).2.2 ⟨"a.jpg", 5, 2500, true⟩ rfl
    simpa using h

/-! ### Sort order and stability -/

instance : IsTotal FileEntry (fun a b => b.mtime ≤ a.mtime) :=
  ⟨fun a b => Or.symm (Nat.le_total a.mtime b.mtime)⟩

instance : IsTrans FileEntry (fun a b => b.mtime ≤ a.mtime) :=
  ⟨fun _ _ _ hab hbc => le_trans hbc hab⟩

/-- C5: the entry sort is descending by mtime; it is a permutation of the
listing; it is stable, so entries of equal mtime keep the underlying
directory order; and the entry list is a pure function of the listing, so
two runs over an unchanged directory produce identical lists. -/
theorem sort_mtime_desc_spec (l : List FileEntry) :
    (sort_mtime_desc l).Pairwise (fun a b => b.mtime ≤ a.mtime) ∧
    (sort_mtime_desc l).Perm l ∧
    (∀ a b : FileEntry, a.mtime = b.mtime → [a, b].Sublist l →
      [a, b].Sublist (sort_mtime_desc l)) ∧
    (∀ st₁ st₂ : IndexState, st₁.listing = st₂.listing →
      index_entries st₁ = index_entries st₂) := by
  refine ⟨List.sorted_insertionSort _ l, List.perm_insertionSort _ l, ?_, ?_⟩
  · intro a b hab hsub
    exact List.pair_sublist_insertionSort (le_of_eq hab.symm) hsub
  · intro st₁ st₂ h
    rcases st₁ with ⟨ls₁, w₁⟩
    rcases st₂ with ⟨ls₂, w₂⟩
    simp only at h
    subst h
    rfl

/-- C5 witness: with two entries of equal mtime 5 separated by a newer
entry, the sort puts the newer entry first and keeps the equal pair in
directory order; and two states with the same listing give the same entry
list. -/
theorem sort_mtime_desc_spec_witness :
    ([⟨"a.jpg", 5, 1, true⟩, ⟨"b.jpg", 5, 2, true⟩] : List FileEntry).Sublist
      (sort_mtime_desc
        [⟨"a.jpg", 5, 1, true⟩, ⟨"c.jpg", 9, 3, true⟩, ⟨"b.jpg", 5, 2, true⟩])  ∧
    index_entries ⟨.ok [⟨"a.jpg", 5, 1, true⟩], true⟩ =
      index_entries ⟨.ok [⟨"a.jpg", 5, 1, true⟩], false⟩ :=
  ⟨(sort_mtime_desc_spec
      [⟨"a.jpg", 5, 1, true⟩, ⟨"c.jpg", 9, 3, true⟩, ⟨"b.jpg", 5, 2, true⟩]).2.2.1
      ⟨"a.jpg", 5, 1, true⟩ ⟨"b.jpg", 5, 2, true⟩ rfl (by decide),
   (sort_mtime_desc_spec []).2.2.2 ⟨.ok [⟨"a.jpg", 5, 1, true⟩], true⟩
      ⟨.ok [⟨"a.jpg", 5, 1, true⟩], false⟩ rfl⟩

/-! ### Timelapse loop -/

/-- Length of the remaining-iterations file list. -/
theorem timelapse_files_pi4_length (outdir : String) (clock : Nat → DateTime) :
    ∀ r i, (timelapse_files_pi4 outdir clock r i).length = r
  | 0, _ => rfl
  | r + 1, i => by
    rw [timelapse_files_pi4, List.length_cons, timelapse_files_pi4_length outdir clock r]

/-- Element `k` of the remaining-iterations file list is the capture of
iteration `i + k`. -/
theorem timelapse_files_pi4_get (outdir : String) (clock : Nat → DateTime) :
    ∀ r i k, k < r → (timelapse_files_pi4 outdir clock r i).get? k =
      some (timestamped_filename_pi4 outdir ("img" ++ zfill 4 (i + k)) "jpg"
        (clock (i + k)))
  | 0, _, k, hk => absurd hk (Nat.not_lt_zero k)
  | r + 1, i, 0, _ => by simp [timelapse_files_pi4]
  | r + 1, i, k + 1, hk => by
    have h1 : i + 1 + k = i + (k + 1) := by omega
    rw [timelapse_files_pi4]
    simp only [List.get?_cons_succ]
    rw [timelapse_files_pi4_get outdir clock r (i + 1) k (Nat.lt_of_succ_lt_succ hk), h1]

/-- Length lemma for the cap_pi6 loop. -/
theorem timelapse_files_pi6_length (outdir : String) (clock : Nat → DateTime) :
    ∀ r i, (timelapse_files_pi6 outdir clock r i).length = r
  | 0, _ => rfl
  | r + 1, i => by
    rw [timelapse_files_pi6, List.length_cons, timelapse_files_pi6_length outdir clock r]

/-- Element lemma for the cap_pi6 loop. -/
theorem timelapse_files_pi6_get (outdir : String) (clock : Nat → DateTime) :
    ∀ r i k, k < r → (timelapse_files_pi6 outdir clock r i).get? k =
      some (timestamped_filename_pi6 outdir ("img" ++ zfill 4 (i + k)) "jpg"
        (clock (i + k)))
  | 0, _, k, hk => absurd hk (Nat.not_lt_zero k)
  | r + 1, i, 0, _ => by simp [timelapse_files_pi6]
  | r + 1, i, k + 1, hk => by
    have h1 : i + 1 + k = i + (k + 1) := by omega
    rw [timelapse_files_pi6]
    simp only [List.get?_cons_succ]
    rw [timelapse_files_pi6_get outdir clock r (i + 1) k (Nat.lt_of_succ_lt_succ hk), h1]

/-- C7: with a configured count `n`, the timelapse loop of either script
performs exactly `n` captures, the `i`-th to the filename with the
zero-padded sequence index `img%04d` at the clock instant of iteration
`i`, and with `count = 3` the three prefixes are `img0000`, `img0001`,
`img0002`, after which the loop condition `i < count` ends the session. -/
theorem timelapse_capture_counts (outdir : String) (clock : Nat → DateTime) (n : Nat) :
    (timelapse_capture_pi4 outdir clock n).length = n ∧
    (timelapse_capture_pi6 outdir clock n).length = n ∧
    (∀ i, i < n → (timelapse_capture_pi4 outdir clock n).get? i =
      some (timestamped_filename_pi4 outdir ("img" ++ zfill 4 i) "jpg" (clock i))) ∧
    (∀ i, i < n → (timelapse_capture_pi6 outdir clock n).get? i =
      some (timestamped_filename_pi6 outdir ("img" ++ zfill 4 i) "jpg" (clock i))) ∧
    timelapse_capture_pi4 outdir clock 3 =
      [timestamped_filename_pi4 outdir "img0000" "jpg" (clock 0),
       timestamped_filename_pi4 outdir "img0001" "jpg" (clock 1),
       timestamped_filename_pi4 outdir "img0002" "jpg" (clock 2)] := by
  refine ⟨timelapse_files_pi4_length outdir clock n 0,
    timelapse_files_pi6_length outdir clock n 0, ?_, ?_, ?_⟩
  · intro i hi
    simpa using timelapse_files_pi4_get outdir clock n 0 i hi
  · intro i hi
    simpa using timelapse_files_pi6_get outdir clock n 0 i hi
  · rfl

/-- C7 witness: one configured iteration yields the capture with the
sequence index `img0000`. -/
theorem timelapse_capture_counts_witness :
    (timelapse_capture_pi4 "d" (fun _ => ⟨2025, 10, 12, 14, 35, 22⟩) 1).get? 0 =
      some (timestamped_filename_pi4 "d" ("img" ++ zfill 4 0) "jpg"
        ⟨2025, 10, 12, 14, 35, 22⟩) :=
  (timelapse_capture_counts "d" (fun _ => ⟨2025, 10, 12, 14, 35, 22⟩) 1).2.2.1 0
    (by decide)

/-! ### The cap_pi6 finalizer -/

/-- C8: the claim says the remote steps of Finalizing run only when a
remote target is configured, and that a session without one still
completes and exits successfully when capture succeeded. The finalizer
guards only the index publish: the republish loop passes `**scp_config`
to `_scp_upload` unconditionally, so a run WITHOUT a remote target and
one captured file raises TypeError (unpacking `None`) instead of
finishing — first conjunct — while the same directory WITH a remote
target finalizes normally — second conjunct. -/
theorem finalize_pi6_requires_remote :
    finalize_pi6 (fun _ => "")
      ⟨false, true, .ok [⟨"a.jpg", 1, 100, true⟩], "images"⟩ = .exc "TypeError" ∧
    finalize_pi6 (fun _ => "")
      ⟨true, true, .ok [⟨"a.jpg", 1, 100, true⟩], "images"⟩ =
      .ok ⟨some "images/index.html", true, ["images/a.jpg"],
        some "images/a.jpg", true⟩ := by
  decide

/-- C9: the claim says the published thumbnail copies the MOST RECENTLY
captured file. The finalizer copies the value left in the loop variable
after iterating over the descending-sorted list, i.e. its LAST element —
the OLDEST file. With `old.jpg` (mtime 10) and `new.jpg` (mtime 20) the
copied thumbnail source is `images/old.jpg`, not the newest
`images/new.jpg` (and the copy lands in the working directory, not the
output directory). -/
theorem finalize_pi6_thumbnail_is_oldest :
    finalize_pi6 (fun _ => "")
      ⟨true, true, .ok [⟨"old.jpg", 10, 100, true⟩, ⟨"new.jpg", 20, 100, true⟩],
        "images"⟩ =
      .ok ⟨some "images/index.html", true, ["images/new.jpg", "images/old.jpg"],
        some "images/old.jpg", true⟩ ∧
    (10 : Nat) < 20 := by
  decide

/-- C10: the thumbnail copy reads the republish loop's variable, so it is
well-defined only when the directory scan found at least one recognized
media file: with zero recognized media files the finalizer raises
NameError instead of skipping the thumbnail step, and with at least one
(and a remote target) it completes with a thumbnail source. -/
theorem finalize_pi6_needs_nonempty_dir (fmt : Nat → String) (st : FinalState)
    (fs : List FileEntry) (hls : st.listing = .ok fs) :
    (fs.filter (fun f => recognized_media f.name) = [] →
      finalize_pi6 fmt st = .exc "NameError") ∧
    (fs.filter (fun f => recognized_media f.name) ≠ [] → st.remote = true →
      ∃ t : FinalTrace, finalize_pi6 fmt st = .ok t ∧ t.thumb_src.isSome = true) := by
  rcases st with ⟨remote, wok, ls, outdir⟩
  simp only at hls
  subst hls
  constructor
  · intro hfe
    cases wok <;>
      simp [finalize_pi6, build_index_html_pi6, index_entries, hfe, sort_mtime_desc]
  · intro hfe hr
    simp only at hr
    subst hr
    have hne : index_entries ⟨.ok fs, wok⟩ ≠ [] := by
      intro h
      apply hfe
      have hp := List.perm_insertionSort (fun a b : FileEntry => b.mtime ≤ a.mtime)
        (fs.filter (fun f => recognized_media f.name))
      rw [show index_entries ⟨.ok fs, wok⟩ =
        sort_mtime_desc (fs.filter (fun f => recognized_media f.name)) from rfl] at h
      rw [sort_mtime_desc] at h
      rw [h] at hp
      exact hp.symm.eq_nil
    rcases he : index_entries ⟨.ok fs, wok⟩ with _ | ⟨e, es⟩
    · exact absurd he hne
    · cases wok <;>
        (simp [finalize_pi6, build_index_html_pi6] at he ⊢; rw [he]; simp)

/-- C10 witness: an empty directory listing makes the finalizer raise
NameError even with a remote target configured, and a one-file listing
with a remote target finalizes with a thumbnail source. -/
theorem finalize_pi6_needs_nonempty_dir_witness :
    finalize_pi6 (fun _ => "") ⟨true, true, .ok [], "images"⟩ = .exc "NameError" ∧
    ∃ t : FinalTrace,
      finalize_pi6 (fun _ => "") ⟨true, true, .ok [⟨"a.jpg", 1, 100, true⟩], "images"⟩ =
        .ok t ∧ t.thumb_src.isSome = true :=
  ⟨(finalize_pi6_needs_nonempty_dir (fun _ => "") ⟨true, true, .ok [], "images"⟩
      [] rfl).1 rfl,
   (finalize_pi6_needs_nonempty_dir (fun _ => "")
      ⟨true, true, .ok [⟨"a.jpg", 1, 100, true⟩], "images"⟩
      [⟨"a.jpg", 1, 100, true⟩] rfl).2 (by decide) rfl⟩

end OwlCam

